import Mathlib

/-!
Shallow embedding of `crates/assistant/src/slash_command/rustdoc_command.rs`:
the `/rustdoc` slash command.  The command parses its raw argument into either
a lookup request (`crate::seg::seg...`) or an index request (`--index crate`),
resolves a lookup through the fallback chain Store → local cargo-doc output →
docs.rs, and wraps the resulting text into a `SlashCommandOutput` with a single
section spanning the whole text.

External collaborators (the rustdoc store, the filesystem, the HTTP client and
the rustdoc-to-markdown converter) are modelled as function-valued fields of a
`Collabs` record; every call the command makes to one of them is recorded in an
`Event` list so that theorems can speak about which collaborators were invoked
and in which order.  Filesystem paths and URLs are modelled as strings joined
with `/`, matching the `Path::push` calls of the source.
-/

namespace RustdocCommand

/-- The provenance tag of a resolved documentation result
(`enum RustdocSource` in the source).  `DocsDotRs` is the remote
(docs.rs) source, called `Remote` by the specification. -/
inductive RustdocSource
  | Local
  | DocsDotRs
  deriving DecidableEq, Repr

/-- The failure kinds the command can surface, one constructor per distinct
`anyhow!`/`bail!`/`?` exit of the source (the spec's error taxonomy).
`remoteStatusError` carries the HTTP status code and the response body text,
as in the `bail!("status error {}, response: {text:?}", ...)` of the source. -/
inductive RustdocError
  | missingArgument
  | missingIndexTarget
  | workspaceRootNotFound
  | conversionFailure
  | remoteStatusError (code : Nat) (snippet : String)
  | transportError
  | storeIndexError
  deriving DecidableEq, Repr

/-- One observable collaborator call made during an invocation. -/
inductive Event
  | storeLoad (crateName : String) (itemPathKey : String)
  | fsLoad (path : String)
  | httpGet (url : String)
  | storeIndex (crateName : String)
  deriving DecidableEq, Repr

/-- The external collaborators of one invocation, as response functions.
`storeLoad crate key` models `RustdocStore::load(crate, Some(key))` (a miss is
`Except.error`); `fsLoad path` models `Fs::load(path)`; `httpGet url` models
the GET (transport/body-read failure is `Except.error`, otherwise the status
code and the fully-read body); `convert` models `convert_rustdoc_to_markdown`
(returning the markdown, the extracted item list being dropped by the source);
`storeIndex crate root` models `RustdocStore::index(crate, provider)` with the
`LocalProvider` bound to the workspace root. -/
structure Collabs where
  storeLoad : String → String → Except Unit String
  fsLoad : String → Except Unit String
  httpGet : String → Except Unit (Nat × String)
  convert : String → Except Unit String
  storeIndex : String → String → Except Unit Unit

/-- `Vec::join(sep)` / `str::join` on a list of segments. -/
def joinWith (sep : String) : List String → String
  | [] => ""
  | [s] => s
  | s :: rest => s ++ sep ++ joinWith sep rest

/-- The candidate path of the local cargo-doc lookup, mirroring the sequence of
`push` calls in `build_message` (lines 38–43): `<root>/target/doc/<crate>`,
then the module path joined with `/` (only when non-empty), then
`index.html`. -/
def localDocPath (root crateName : String) (modulePath : List String) : String :=
  let p := root ++ "/target/doc/" ++ crateName
  let p := if modulePath.isEmpty then p else p ++ "/" ++ joinWith "/" modulePath
  p ++ "/index.html"

/-- The docs.rs URL built by `build_message` (lines 52–60), with
`version = "latest"`. -/
def docsRsUrl (crateName : String) (modulePath : List String) : String :=
  "https://docs.rs/" ++ crateName ++ "/latest/" ++ crateName ++ "/" ++
    joinWith "/" modulePath

/-- `http::StatusCode::is_client_error`: the 4xx class. -/
def isClientError (status : Nat) : Bool :=
  400 ≤ status && status < 500

/-- The remote (docs.rs) stage of `build_message` (lines 52–83): one GET to the
derived URL, the whole body read into memory; a 4xx status bails out with the
status code and the body text, any other status feeds the body to the
converter and tags the result `DocsDotRs`. -/
def remoteFetch (c : Collabs) (crateName : String) (modulePath : List String) :
    Except RustdocError (RustdocSource × String) × List Event :=
  let url := docsRsUrl crateName modulePath
  match c.httpGet url with
  | .error _ => (.error .transportError, [.httpGet url])
  | .ok (status, body) =>
    if isClientError status then
      (.error (.remoteStatusError status body), [.httpGet url])
    else
      match c.convert body with
      | .ok markdown => (.ok (.DocsDotRs, markdown), [.httpGet url])
      | .error _ => (.error .conversionFailure, [.httpGet url])

/-- `RustdocSlashCommand::build_message` (lines 29–84).  `workspaceRoot` is
`path_to_cargo_toml.and_then(|p| p.parent())` of the source, already taken as
a directory.  When a root exists, a successful read of the candidate path is
converted (a conversion failure propagating via `?`) and tagged `Local`; a
failed read falls through to the remote fetch. -/
def build_message (c : Collabs) (crateName : String) (modulePath : List String)
    (workspaceRoot : Option String) :
    Except RustdocError (RustdocSource × String) × List Event :=
  match workspaceRoot with
  | none => remoteFetch c crateName modulePath
  | some root =>
    let path := localDocPath root crateName modulePath
    match c.fsLoad path with
    | .ok contents =>
      match c.convert contents with
      | .ok markdown => (.ok (.Local, markdown), [.fsLoad path])
      | .error _ => (.error .conversionFailure, [.fsLoad path])
    | .error _ =>
      let (r, evs) := remoteFetch c crateName modulePath
      (r, .fsLoad path :: evs)

/-- The background lookup stage of `run` (lines 221–243): `Store::load` on
`(crate_name, item_path.join("::"))`; a hit short-circuits with `Local`, any
miss falls through to `build_message`. -/
def resolveLookup (c : Collabs) (crateName : String) (itemPath : List String)
    (workspaceRoot : Option String) :
    Except RustdocError (RustdocSource × String) × List Event :=
  let key := joinWith "::" itemPath
  match c.storeLoad crateName key with
  | .ok itemDocs => (.ok (.Local, itemDocs), [.storeLoad crateName key])
  | .error _ =>
    let (r, evs) := build_message c crateName itemPath workspaceRoot
    (r, .storeLoad crateName key :: evs)

/-- The result of parsing the raw slash-command argument. -/
inductive ParsedCommand
  | lookup (crateName : String) (itemPath : List String)
  | index (crateName : String)
  deriving DecidableEq, Repr

/-- `str::split(' ')` of the source, on the underlying character list: split at
every single space, keeping empty pieces (so `""` yields `[""]`). -/
def splitChars (sep : Char) : List Char → List (List Char)
  | [] => [[]]
  | c :: cs =>
    match splitChars sep cs with
    | [] => [[c]]
    | r :: rs => if c = sep then [] :: r :: rs else (c :: r) :: rs

/-- `str::trim` on a character list (leading and trailing whitespace
removed). -/
def trimChars (cs : List Char) : List Char :=
  ((cs.dropWhile Char.isWhitespace).reverse.dropWhile Char.isWhitespace).reverse

/-- `argument.split(' ').map(|word| word.trim())` of `run` (line 156). -/
def tokenize (s : String) : List String :=
  (splitChars ' ' s.data).map (fun cs => (trimChars cs).asString)

/-- `str::split("::")` of `run` (line 211), on the character list: split at
every `::` occurrence, keeping empty pieces (so `""` yields `[""]`). -/
def splitColons : List Char → List (List Char)
  | [] => [[]]
  | ':' :: ':' :: cs => [] :: splitColons cs
  | c :: cs =>
    match splitColons cs with
    | [] => [[c]]
    | r :: rs => (c :: r) :: rs

/-- `item_path.split("::")` as a list of strings. -/
def splitPathSegments (s : String) : List String :=
  (splitColons s.data).map List.asString

/-- Concatenation of the non-flag tokens without reinserting whitespace
(`item_path.push_str(arg)` accumulated over the loop). -/
def concatTokens : List String → String
  | [] => ""
  | t :: ts => t ++ concatTokens ts

/-- The argument loop of `run` (lines 156–167): `--index` consumes the next
token as the crate to index (failing when none follows); every other token is
appended to the raw item-path string. -/
def parseTokenLoop :
    List String → String → Option String →
    Except RustdocError (String × Option String)
  | [], itemPath, idx => .ok (itemPath, idx)
  | arg :: rest, itemPath, idx =>
    if arg = "--index" then
      match rest with
      | [] => .error .missingIndexTarget
      | crateName :: rest => parseTokenLoop rest itemPath (some crateName)
    else
      parseTokenLoop rest (itemPath ++ arg) idx

/-- The command parser of `run` (lines 141–143, 153–167, 211–219): an absent
argument fails with `missingArgument` (`anyhow!("missing crate name")`); an
`--index` flag wins over the item path; otherwise the concatenated tokens are
split on `::`, the first segment becoming the crate name and the rest the item
path.  (The `[]` branch of the split mirrors the source's
`ok_or_else(|| anyhow!("missing crate name"))`; like in the source it is
unreachable, `split` always yielding at least one piece.) -/
def parseArgument : Option String → Except RustdocError ParsedCommand
  | none => .error .missingArgument
  | some argument =>
    match parseTokenLoop (tokenize argument) "" none with
    | .error e => .error e
    | .ok (_, some crateNameToIndex) => .ok (.index crateNameToIndex)
    | .ok (itemPathStr, none) =>
      match splitPathSegments itemPathStr with
      | [] => .error .missingArgument
      | crateName :: rest => .ok (.lookup crateName rest)

/-- The index branch of `run` (lines 169–187): without a workspace root the
dispatch fails with `workspaceRootNotFound` before any store call; with one,
`Store::index` runs and a success yields the text `Indexed <crate>`. -/
def dispatchIndex (c : Collabs) (crateNameToIndex : String)
    (workspaceRoot : Option String) : Except RustdocError String × List Event :=
  match workspaceRoot with
  | none => (.error .workspaceRootNotFound, [])
  | some root =>
    match c.storeIndex crateNameToIndex root with
    | .ok _ => (.ok ("Indexed " ++ crateNameToIndex), [.storeIndex crateNameToIndex])
    | .error _ => (.error .storeIndexError, [.storeIndex crateNameToIndex])

/-- One output section: a byte range over the produced text (the rendering
descriptor of the source is out of scope and carries no data here). -/
structure SlashCommandOutputSection where
  rangeStart : Nat
  rangeEnd : Nat
  deriving DecidableEq, Repr

/-- `SlashCommandOutput`: the produced text, its sections, and the flag
controlling embedded-command execution. -/
structure SlashCommandOutput where
  text : String
  sections : List SlashCommandOutputSection
  run_commands_in_text : Bool
  deriving DecidableEq, Repr

/-- The foreground wrap-up of both branches of `run` (lines 189–208 and
251–271): one section over `0..text.len()` (byte length) and
`run_commands_in_text: false`. -/
def wrapOutput (text : String) : SlashCommandOutput :=
  { text := text
    sections := [{ rangeStart := 0, rangeEnd := text.utf8ByteSize }]
    run_commands_in_text := false }

/-- `RustdocSlashCommand::run` (lines 134–272): parse, then either the index
dispatch or the lookup resolution, the single background result wrapped into a
`SlashCommandOutput` on the foreground stage.  (The `workspace.upgrade()`
failure of line 144 concerns a dropped UI handle and is outside this model.) -/
def run (c : Collabs) (argument : Option String) (workspaceRoot : Option String) :
    Except RustdocError SlashCommandOutput × List Event :=
  match parseArgument argument with
  | .error e => (.error e, [])
  | .ok (.index crateNameToIndex) =>
    (match (dispatchIndex c crateNameToIndex workspaceRoot).1 with
     | .ok text => .ok (wrapOutput text)
     | .error e => .error e,
     (dispatchIndex c crateNameToIndex workspaceRoot).2)
  | .ok (.lookup crateName itemPath) =>
    (match (resolveLookup c crateName itemPath workspaceRoot).1 with
     | .ok st => .ok (wrapOutput st.2)
     | .error e => .error e,
     (resolveLookup c crateName itemPath workspaceRoot).2)

/-- `complete_argument` (lines 117–132): the search bridge.  The store's
matches (crate name and the item's display string) are formatted as
`crate::item`.  The cancellation flag parameter is present but unused in the
source (`_cancel`). -/
def complete_argument (_cancel : Bool)
    (searchResults : List (String × String)) : List String :=
  searchResults.map (fun p => p.1 ++ "::" ++ p.2)

/-- The filesystem paths read during a run. -/
def fsLoadPaths (evs : List Event) : List String :=
  evs.filterMap fun ev =>
    match ev with
    | .fsLoad path => some path
    | _ => none

/-- The URLs fetched over HTTP during a run. -/
def httpGetUrls (evs : List Event) : List String :=
  evs.filterMap fun ev =>
    match ev with
    | .httpGet url => some url
    | _ => none

/-- The store lookups performed during a run. -/
def storeLoadCalls (evs : List Event) : List (String × String) :=
  evs.filterMap fun ev =>
    match ev with
    | .storeLoad crateName key => some (crateName, key)
    | _ => none

/-- The store index calls performed during a run. -/
def storeIndexCalls (evs : List Event) : List String :=
  evs.filterMap fun ev =>
    match ev with
    | .storeIndex crateName => some crateName
    | _ => none

/-! Concrete collaborator environments used by the witnesses. -/

/-- A store that always hits. -/
def storeHitCollabs : Collabs where
  storeLoad := fun _ _ => .ok "stored docs"
  fsLoad := fun _ => .error ()
  httpGet := fun _ => .error ()
  convert := fun s => .ok s
  storeIndex := fun _ _ => .ok ()

/-- A store that misses over a filesystem where the local doc file exists. -/
def localHitCollabs : Collabs where
  storeLoad := fun _ _ => .error ()
  fsLoad := fun _ => .ok "<html>local</html>"
  httpGet := fun _ => .error ()
  convert := fun s => .ok ("md:" ++ s)
  storeIndex := fun _ _ => .ok ()

/-- Store and filesystem both miss; every GET answers with the given status
and body. -/
def remoteCollabs (status : Nat) (body : String) : Collabs where
  storeLoad := fun _ _ => .error ()
  fsLoad := fun _ => .error ()
  httpGet := fun _ => .ok (status, body)
  convert := fun s => .ok ("md:" ++ s)
  storeIndex := fun _ _ => .ok ()

/-- Store misses, the local doc file exists, but conversion fails. -/
def convertFailCollabs : Collabs where
  storeLoad := fun _ _ => .error ()
  fsLoad := fun _ => .ok "<bad/>"
  httpGet := fun _ => .ok (200, "remote body")
  convert := fun _ => .error ()
  storeIndex := fun _ _ => .ok ()

/-! Unfolding lemmas for the fallback chain. -/

lemma fsLoadPaths_cons (ev : Event) (evs : List Event) :
    fsLoadPaths (ev :: evs) =
      (match ev with
       | .fsLoad path => [path]
       | _ => []) ++ fsLoadPaths evs := by
  cases ev <;> simp [fsLoadPaths]

lemma httpGetUrls_cons (ev : Event) (evs : List Event) :
    httpGetUrls (ev :: evs) =
      (match ev with
       | .httpGet url => [url]
       | _ => []) ++ httpGetUrls evs := by
  cases ev <;> simp [httpGetUrls]

lemma remoteFetch_snd (c : Collabs) (crateName : String) (itemPath : List String) :
    (remoteFetch c crateName itemPath).2 = [.httpGet (docsRsUrl crateName itemPath)] := by
  unfold remoteFetch
  rcases h : c.httpGet (docsRsUrl crateName itemPath) with e | ⟨status, body⟩
  · simp [h]
  · by_cases hc : isClientError status
    · simp [h, hc]
    · rcases hcv : c.convert body with e | markdown <;> simp [h, hc, hcv]

lemma build_message_some_eq (c : Collabs) (crateName : String)
    (itemPath : List String) (root : String) :
    build_message c crateName itemPath (some root) =
      (match c.fsLoad (localDocPath root crateName itemPath) with
       | .ok contents =>
         (match c.convert contents with
          | .ok markdown =>
            (.ok (.Local, markdown), [.fsLoad (localDocPath root crateName itemPath)])
          | .error _ =>
            (.error .conversionFailure, [.fsLoad (localDocPath root crateName itemPath)]))
       | .error _ =>
         ((remoteFetch c crateName itemPath).1,
          .fsLoad (localDocPath root crateName itemPath) ::
            (remoteFetch c crateName itemPath).2)) := by
  unfold build_message
  rcases h : c.fsLoad (localDocPath root crateName itemPath) with e | contents
  · rcases hrf : remoteFetch c crateName itemPath with ⟨r, evs⟩
    simp [h, hrf]
  · rcases hcv : c.convert contents with e | markdown <;> simp [h, hcv]

lemma resolveLookup_hit_eq (c : Collabs) (crateName : String)
    (itemPath : List String) (workspaceRoot : Option String) (docs : String)
    (h : c.storeLoad crateName (joinWith "::" itemPath) = .ok docs) :
    resolveLookup c crateName itemPath workspaceRoot =
      (.ok (.Local, docs), [.storeLoad crateName (joinWith "::" itemPath)]) := by
  simp [resolveLookup, h]

lemma resolveLookup_miss_eq (c : Collabs) (crateName : String)
    (itemPath : List String) (workspaceRoot : Option String)
    (hmiss : c.storeLoad crateName (joinWith "::" itemPath) = .error ()) :
    resolveLookup c crateName itemPath workspaceRoot =
      ((build_message c crateName itemPath workspaceRoot).1,
       .storeLoad crateName (joinWith "::" itemPath) ::
         (build_message c crateName itemPath workspaceRoot).2) := by
  unfold resolveLookup
  rcases h : build_message c crateName itemPath workspaceRoot with ⟨r, evs⟩
  simp [hmiss, h]

lemma localDocPath_eq (root crateName : String) (modulePath : List String) :
    localDocPath root crateName modulePath =
      root ++ "/target/doc/" ++ crateName ++
        (if modulePath.isEmpty then "" else "/" ++ joinWith "/" modulePath) ++
        "/index.html" := by
  unfold localDocPath
  cases h : modulePath.isEmpty <;>
    simp [h, String.append_assoc, String.append_empty]

/-- C1: If `Store.load` returns successfully, the resolution result is the
stored text tagged `Local`, and neither the filesystem collaborator nor the
HTTP collaborator is invoked for that request. -/
theorem store_hit_short_circuits (c : Collabs) (crateName : String)
    (itemPath : List String) (workspaceRoot : Option String) (docs : String)
    (h : c.storeLoad crateName (joinWith "::" itemPath) = .ok docs) :
    (resolveLookup c crateName itemPath workspaceRoot).1 = .ok (.Local, docs) ∧
    fsLoadPaths (resolveLookup c crateName itemPath workspaceRoot).2 = [] ∧
    httpGetUrls (resolveLookup c crateName itemPath workspaceRoot).2 = [] := by
  rw [resolveLookup_hit_eq c crateName itemPath workspaceRoot docs h]
  refine ⟨rfl, ?_, ?_⟩ <;> simp [fsLoadPaths, httpGetUrls]

/-- Witness for C1 at a concrete store-hit environment. -/
theorem store_hit_short_circuits_witness :
    (resolveLookup storeHitCollabs "tokio" ["sync", "Mutex"] (some "/ws")).1 =
        .ok (.Local, "stored docs") ∧
    fsLoadPaths (resolveLookup storeHitCollabs "tokio" ["sync", "Mutex"] (some "/ws")).2 =
        [] ∧
    httpGetUrls (resolveLookup storeHitCollabs "tokio" ["sync", "Mutex"] (some "/ws")).2 =
        [] :=
  store_hit_short_circuits storeHitCollabs "tokio" ["sync", "Mutex"] (some "/ws")
    "stored docs" rfl

/-- C2: On a store miss with a workspace root present, the local stage reads
exactly `<root>/target/doc/<crate_name>/<item_path joined by "/">/index.html`
(the segment component omitted when `item_path` is empty), and a successful
read resolves to the conversion of the file's contents tagged `Local`. -/
theorem local_read_resolves_local (c : Collabs)
    (crateName root contents markdown : String) (itemPath : List String)
    (hmiss : c.storeLoad crateName (joinWith "::" itemPath) = .error ())
    (hread : c.fsLoad (localDocPath root crateName itemPath) = .ok contents)
    (hconv : c.convert contents = .ok markdown) :
    fsLoadPaths (resolveLookup c crateName itemPath (some root)).2 =
      [root ++ "/target/doc/" ++ crateName ++
        (if itemPath.isEmpty then "" else "/" ++ joinWith "/" itemPath) ++
        "/index.html"] ∧
    (resolveLookup c crateName itemPath (some root)).1 = .ok (.Local, markdown) := by
  rw [resolveLookup_miss_eq c crateName itemPath (some root) hmiss,
    build_message_some_eq, hread]
  simp [hconv, fsLoadPaths, localDocPath_eq]

/-- Witness for C2 at a concrete local-hit environment. -/
theorem local_read_resolves_local_witness :
    fsLoadPaths (resolveLookup localHitCollabs "serde" ["de"] (some "/ws")).2 =
      ["/ws" ++ "/target/doc/" ++ "serde" ++
        (if (["de"] : List String).isEmpty then "" else "/" ++ joinWith "/" ["de"]) ++
        "/index.html"] ∧
    (resolveLookup localHitCollabs "serde" ["de"] (some "/ws")).1 =
      .ok (.Local, "md:" ++ "<html>local</html>") :=
  local_read_resolves_local localHitCollabs "serde" "/ws" "<html>local</html>"
    ("md:" ++ "<html>local</html>") ["de"] rfl rfl rfl

lemma isClientError_iff (status : Nat) :
    isClientError status = true ↔ 400 ≤ status ∧ status < 500 := by
  simp [isClientError]

lemma remoteFetch_fst (c : Collabs) (crateName : String) (itemPath : List String)
    (status : Nat) (body : String)
    (hhttp : c.httpGet (docsRsUrl crateName itemPath) = .ok (status, body)) :
    (remoteFetch c crateName itemPath).1 =
      if isClientError status then .error (.remoteStatusError status body)
      else
        match c.convert body with
        | .ok markdown => .ok (.DocsDotRs, markdown)
        | .error _ => .error .conversionFailure := by
  unfold remoteFetch
  by_cases hc : isClientError status
  · simp [hhttp, hc]
  · rcases hcv : c.convert body with e | markdown <;> simp [hhttp, hc, hcv]

lemma build_message_miss_eq (c : Collabs) (crateName : String)
    (itemPath : List String) (workspaceRoot : Option String)
    (hlocal : ∀ root, workspaceRoot = some root →
      c.fsLoad (localDocPath root crateName itemPath) = .error ()) :
    (build_message c crateName itemPath workspaceRoot).1 =
      (remoteFetch c crateName itemPath).1 ∧
    httpGetUrls (build_message c crateName itemPath workspaceRoot).2 =
      httpGetUrls (remoteFetch c crateName itemPath).2 := by
  cases workspaceRoot with
  | none => exact ⟨rfl, rfl⟩
  | some root =>
    rw [build_message_some_eq, hlocal root rfl]
    exact ⟨rfl, by rw [httpGetUrls_cons]; rfl⟩

/-- C3: with both the store and the local lookup missing, exactly one HTTP GET
is issued, to `https://docs.rs/<crate>/latest/<crate>/<item_path joined by
"/">`; a 4xx status yields `remoteStatusError` with that exact code and the
body text, and any other status feeds the body to the converter, tagging the
result `DocsDotRs` (the remote source). -/
theorem remote_fetch_single_get (c : Collabs) (crateName : String)
    (itemPath : List String) (workspaceRoot : Option String)
    (status : Nat) (body : String)
    (hmiss : c.storeLoad crateName (joinWith "::" itemPath) = .error ())
    (hlocal : ∀ root, workspaceRoot = some root →
      c.fsLoad (localDocPath root crateName itemPath) = .error ())
    (hhttp : c.httpGet (docsRsUrl crateName itemPath) = .ok (status, body)) :
    httpGetUrls (resolveLookup c crateName itemPath workspaceRoot).2 =
      ["https://docs.rs/" ++ crateName ++ "/latest/" ++ crateName ++ "/" ++
        joinWith "/" itemPath] ∧
    (400 ≤ status ∧ status < 500 →
      (resolveLookup c crateName itemPath workspaceRoot).1 =
        .error (.remoteStatusError status body)) ∧
    (¬ (400 ≤ status ∧ status < 500) →
      (resolveLookup c crateName itemPath workspaceRoot).1 =
        match c.convert body with
        | .ok markdown => .ok (.DocsDotRs, markdown)
        | .error _ => .error .conversionFailure) := by
  obtain ⟨hb1, hb2⟩ := build_message_miss_eq c crateName itemPath workspaceRoot hlocal
  rw [resolveLookup_miss_eq c crateName itemPath workspaceRoot hmiss]
  refine ⟨?_, ?_, ?_⟩
  · show httpGetUrls (.storeLoad crateName (joinWith "::" itemPath) ::
      (build_message c crateName itemPath workspaceRoot).2) = _
    rw [httpGetUrls_cons]
    rw [hb2, remoteFetch_snd]
    simp [httpGetUrls, docsRsUrl]
  · intro h4
    have hc : isClientError status = true := (isClientError_iff status).mpr h4
    show (build_message c crateName itemPath workspaceRoot).1 = _
    rw [hb1, remoteFetch_fst c crateName itemPath status body hhttp, if_pos hc]
  · intro h4
    have hc : ¬ isClientError status = true :=
      fun hh => h4 ((isClientError_iff status).mp hh)
    show (build_message c crateName itemPath workspaceRoot).1 = _
    rw [hb1, remoteFetch_fst c crateName itemPath status body hhttp, if_neg hc]

/-- Witness for C3 at a concrete 404 environment. -/
theorem remote_fetch_single_get_witness :
    httpGetUrls (resolveLookup (remoteCollabs 404 "not found") "serde" ["de"]
        (some "/ws")).2 =
      ["https://docs.rs/" ++ "serde" ++ "/latest/" ++ "serde" ++ "/" ++
        joinWith "/" ["de"]] ∧
    (400 ≤ 404 ∧ 404 < 500 →
      (resolveLookup (remoteCollabs 404 "not found") "serde" ["de"] (some "/ws")).1 =
        .error (.remoteStatusError 404 "not found")) ∧
    (¬ (400 ≤ 404 ∧ 404 < 500) →
      (resolveLookup (remoteCollabs 404 "not found") "serde" ["de"] (some "/ws")).1 =
        match (remoteCollabs 404 "not found").convert "not found" with
        | .ok markdown => .ok (.DocsDotRs, markdown)
        | .error _ => .error .conversionFailure) :=
  remote_fetch_single_get (remoteCollabs 404 "not found") "serde" ["de"]
    (some "/ws") 404 "not found" rfl (fun _ _ => rfl) rfl

/-- C4: a store miss and a local read miss are each swallowed, triggering the
next fallback stage (the local read happens at the derived path after a store
miss; the remote GET happens after both miss); a conversion failure after a
successful local read is terminal — the resolution fails with
`conversionFailure` and the remote stage is never attempted. -/
theorem miss_kinds_swallowed :
    (∀ (c : Collabs) (crateName : String) (itemPath : List String) (root : String),
      c.storeLoad crateName (joinWith "::" itemPath) = .error () →
      fsLoadPaths (resolveLookup c crateName itemPath (some root)).2 =
        [localDocPath root crateName itemPath]) ∧
    (∀ (c : Collabs) (crateName : String) (itemPath : List String) (root : String),
      c.storeLoad crateName (joinWith "::" itemPath) = .error () →
      c.fsLoad (localDocPath root crateName itemPath) = .error () →
      httpGetUrls (resolveLookup c crateName itemPath (some root)).2 =
        [docsRsUrl crateName itemPath]) ∧
    (∀ (c : Collabs) (crateName : String) (itemPath : List String)
        (root contents : String),
      c.storeLoad crateName (joinWith "::" itemPath) = .error () →
      c.fsLoad (localDocPath root crateName itemPath) = .ok contents →
      c.convert contents = .error () →
      (resolveLookup c crateName itemPath (some root)).1 =
          .error .conversionFailure ∧
      httpGetUrls (resolveLookup c crateName itemPath (some root)).2 = []) := by
  refine ⟨?_, ?_, ?_⟩
  · intro c crateName itemPath root hmiss
    rw [resolveLookup_miss_eq c crateName itemPath (some root) hmiss,
      build_message_some_eq]
    rcases hf : c.fsLoad (localDocPath root crateName itemPath) with e | contents
    · simp [fsLoadPaths, remoteFetch_snd]
    · rcases hcv : c.convert contents with e | markdown <;> simp [hcv, fsLoadPaths]
  · intro c crateName itemPath root hmiss hread
    rw [resolveLookup_miss_eq c crateName itemPath (some root) hmiss,
      build_message_some_eq, hread]
    simp [httpGetUrls, remoteFetch_snd]
  · intro c crateName itemPath root contents hmiss hread hconv
    rw [resolveLookup_miss_eq c crateName itemPath (some root) hmiss,
      build_message_some_eq, hread]
    simp [hconv, httpGetUrls]

/-- Witness for C4 at a concrete environment whose conversion fails after a
successful local read. -/
theorem miss_kinds_swallowed_witness :
    (resolveLookup convertFailCollabs "serde" ["de"] (some "/ws")).1 =
        .error .conversionFailure ∧
    httpGetUrls (resolveLookup convertFailCollabs "serde" ["de"] (some "/ws")).2 =
        [] :=
  miss_kinds_swallowed.2.2 convertFailCollabs "serde" ["de"] "/ws" "<bad/>"
    rfl rfl rfl

lemma run_lookup_snd (c : Collabs) (argument : Option String)
    (workspaceRoot : Option String) (crateName : String) (itemPath : List String)
    (h : parseArgument argument = .ok (.lookup crateName itemPath)) :
    (run c argument workspaceRoot).2 =
      (resolveLookup c crateName itemPath workspaceRoot).2 := by
  unfold run
  rw [h]

lemma run_index_snd (c : Collabs) (argument : Option String)
    (workspaceRoot : Option String) (crateName : String)
    (h : parseArgument argument = .ok (.index crateName)) :
    (run c argument workspaceRoot).2 = (dispatchIndex c crateName workspaceRoot).2 := by
  unfold run
  rw [h]

lemma run_lookup_fst (c : Collabs) (argument : Option String)
    (workspaceRoot : Option String) (crateName : String) (itemPath : List String)
    (h : parseArgument argument = .ok (.lookup crateName itemPath)) :
    (run c argument workspaceRoot).1 =
      match (resolveLookup c crateName itemPath workspaceRoot).1 with
      | .ok st => .ok (wrapOutput st.2)
      | .error e => .error e := by
  unfold run
  rw [h]

lemma run_index_fst (c : Collabs) (argument : Option String)
    (workspaceRoot : Option String) (crateName : String)
    (h : parseArgument argument = .ok (.index crateName)) :
    (run c argument workspaceRoot).1 =
      match (dispatchIndex c crateName workspaceRoot).1 with
      | .ok text => .ok (wrapOutput text)
      | .error e => .error e := by
  unfold run
  rw [h]

/-- C5 (claim vs code): an absent argument does fail with `missingArgument`,
but the **empty** argument string does not — it parses to a lookup request
with an empty crate name, and the resolution is started: the first collaborator
call of the run is `Store.load` with the empty crate name and empty item-path
key. -/
theorem empty_argument_starts_lookup :
    parseArgument none = .error .missingArgument ∧
    parseArgument (some "") = .ok (.lookup "" []) ∧
    ∀ (c : Collabs) (workspaceRoot : Option String),
      (storeLoadCalls (run c (some "") workspaceRoot).2).head? = some ("", "") := by
  refine ⟨rfl, rfl, ?_⟩
  intro c workspaceRoot
  rw [run_lookup_snd c (some "") workspaceRoot "" [] rfl]
  rcases hs : c.storeLoad "" "" with e | docs
  · rw [resolveLookup_miss_eq c "" [] workspaceRoot hs]
    simp [storeLoadCalls, joinWith]
  · rw [resolveLookup_hit_eq c "" [] workspaceRoot docs hs]
    simp [storeLoadCalls, joinWith]

/-- C6 counterexample: with the cancellation flag set, the search bridge still
returns the formatted store matches — not the empty candidate list the claim
requires. -/
theorem cancelled_search_still_formats :
    complete_argument true [("serde", "Serialize")] = ["serde::Serialize"] ∧
    complete_argument true [("serde", "Serialize")] ≠ ([] : List String) := by
  exact ⟨rfl, by decide⟩

/-- C6 amended: `complete_argument` never reads its cancellation flag; the
candidate list is the same formatted `crate::item` list whether or not the
flag is set before `Store.search` resolves. -/
theorem cancel_flag_has_no_effect (searchResults : List (String × String)) :
    complete_argument true searchResults = complete_argument false searchResults :=
  rfl

/-- C7: `--index serde` parses to an index request for `serde` and the
resolver is never invoked for that run (no store lookup, no filesystem read,
no HTTP GET); a trailing `--index` with no following token fails with
`missingIndexTarget`. -/
theorem index_flag_parses_and_skips_resolver :
    parseArgument (some "--index serde") = .ok (.index "serde") ∧
    (∀ (c : Collabs) (workspaceRoot : Option String),
      storeLoadCalls (run c (some "--index serde") workspaceRoot).2 = [] ∧
      fsLoadPaths (run c (some "--index serde") workspaceRoot).2 = [] ∧
      httpGetUrls (run c (some "--index serde") workspaceRoot).2 = []) ∧
    parseArgument (some "--index") = .error .missingIndexTarget := by
  refine ⟨rfl, ?_, rfl⟩
  intro c workspaceRoot
  rw [run_index_snd c (some "--index serde") workspaceRoot "serde" rfl]
  rcases workspaceRoot with _ | root
  · simp [dispatchIndex, storeLoadCalls, fsLoadPaths, httpGetUrls]
  · rcases hi : c.storeIndex "serde" root with e | u <;>
      simp [dispatchIndex, hi, storeLoadCalls, fsLoadPaths, httpGetUrls]

lemma parseTokenLoop_no_flag (tokens : List String) (acc : String)
    (h : "--index" ∉ tokens) :
    parseTokenLoop tokens acc none = .ok (acc ++ concatTokens tokens, none) := by
  induction tokens generalizing acc with
  | nil => simp [parseTokenLoop, concatTokens, String.append_empty]
  | cons t ts ih =>
    simp only [List.mem_cons, not_or] at h
    have ht : ¬ t = "--index" := fun hh => h.1 hh.symm
    have hstep : parseTokenLoop (t :: ts) acc none =
        parseTokenLoop ts (acc ++ t) none := by
      rw [parseTokenLoop.eq_def]
      simp [ht]
    rw [hstep, ih (acc ++ t) h.2]
    simp only [concatTokens]
    rw [String.append_assoc]

/-- C8: any argument whose tokens contain no `--index` flag is parsed by
concatenating its trimmed tokens without whitespace and splitting the result
on `::`, the first segment becoming the crate name and the remaining segments
the item path; in particular `tokio::sync::Mutex` parses to crate `tokio`
with item path `["sync", "Mutex"]`. -/
theorem lookup_argument_splits_on_colons :
    (∀ s : String, "--index" ∉ tokenize s →
      parseArgument (some s) =
        match splitPathSegments (concatTokens (tokenize s)) with
        | [] => .error .missingArgument
        | crateName :: rest => .ok (.lookup crateName rest)) ∧
    parseArgument (some "tokio::sync::Mutex") =
      .ok (.lookup "tokio" ["sync", "Mutex"]) := by
  refine ⟨?_, rfl⟩
  intro s h
  simp only [parseArgument]
  rw [parseTokenLoop_no_flag (tokenize s) "" h, String.empty_append]

/-- Witness for C8 at a concrete three-segment argument. -/
theorem lookup_argument_splits_on_colons_witness :
    parseArgument (some "serde::de::Error") =
      match splitPathSegments (concatTokens (tokenize "serde::de::Error")) with
      | [] => .error .missingArgument
      | crateName :: rest => .ok (.lookup crateName rest) :=
  lookup_argument_splits_on_colons.1 "serde::de::Error" (by decide)

/-- C9: an index request run with no discoverable workspace root fails with
`workspaceRootNotFound` and performs no collaborator call at all — in
particular `Store.index` is never invoked. -/
theorem index_without_root_fails (c : Collabs) (argument : Option String)
    (crateName : String)
    (h : parseArgument argument = .ok (.index crateName)) :
    run c argument none = (.error .workspaceRootNotFound, []) := by
  unfold run
  rw [h]
  rfl

/-- Witness for C9 at the concrete argument `--index serde`. -/
theorem index_without_root_fails_witness :
    run storeHitCollabs (some "--index serde") none =
      (.error .workspaceRootNotFound, []) :=
  index_without_root_fails storeHitCollabs (some "--index serde") "serde" rfl

/-- C10: every successful run (lookup or index) produces exactly one output
section, spanning the byte range `[0, len(text))` of the produced text, with
the embedded-command-execution flag false. -/
theorem output_has_single_full_section (c : Collabs) (argument : Option String)
    (workspaceRoot : Option String) (out : SlashCommandOutput)
    (h : (run c argument workspaceRoot).1 = .ok out) :
    out.sections = [{ rangeStart := 0, rangeEnd := out.text.utf8ByteSize }] ∧
    out.run_commands_in_text = false := by
  rcases hp : parseArgument argument with e | cmd
  · have he : (run c argument workspaceRoot).1 = .error e := by
      unfold run
      rw [hp]
    rw [he] at h
    cases h
  · rcases cmd with ⟨crateName, itemPath⟩ | crateName
    · rw [run_lookup_fst c argument workspaceRoot crateName itemPath hp] at h
      rcases hr : (resolveLookup c crateName itemPath workspaceRoot).1 with e | st <;>
        rw [hr] at h
      · simp at h
      · simp only [Except.ok.injEq] at h
        subst h
        exact ⟨rfl, rfl⟩
    · rw [run_index_fst c argument workspaceRoot crateName hp] at h
      rcases hd : (dispatchIndex c crateName workspaceRoot).1 with e | text <;>
        rw [hd] at h
      · simp at h
      · simp only [Except.ok.injEq] at h
        subst h
        exact ⟨rfl, rfl⟩

/-- Witness for C10 at a concrete successful lookup. -/
theorem output_has_single_full_section_witness :
    (wrapOutput "stored docs").sections =
      [{ rangeStart := 0, rangeEnd := ("stored docs" : String).utf8ByteSize }] ∧
    (wrapOutput "stored docs").run_commands_in_text = false :=
  output_has_single_full_section storeHitCollabs (some "tokio") none
    (wrapOutput "stored docs") rfl

end RustdocCommand
